import Mathlib

/-
Shallow embedding of the beatsaver-cacher harvest-filter-encode-persist
pipeline (src/src/cacher.rs, src/src/cacher/protogen.rs) together with
proofs about it.

Modelling conventions:
- Rust machine integers are modelled as `Int`/`Nat` with explicit range
  checks where the source performs fallible conversions (`u32::try_from`,
  `u32::from_str_radix`).
- Rust floats (`f32`/`f64`) carry no arithmetic in this code: they are only
  copied, defaulted and cast.  They are modelled as opaque bit-carriers so
  that the data flow is preserved; no theorem below depends on float
  arithmetic.
- A Rust panic (`unwrap`, `unreachable`, vector index out of bounds) is
  modelled as `Option.none` / `EncodeResult.crash`: the computation has no
  result and the process terminates.
- The `HashMap<String, MapMetadata>` snapshot is modelled as an association
  list where `insert` conses in front and lookup returns the first match,
  which is observationally the overwrite semantics of `HashMap::insert`.
-/

namespace Cacher

/-- Stand-in for Rust `f64`: an opaque bit pattern. The cacher never does
float arithmetic, it only copies, defaults to `0.0` and casts to `f32`. -/
structure F64 where
  bits : Nat
  deriving DecidableEq

/-- Stand-in for Rust `f32`: an opaque bit pattern. -/
structure F32 where
  bits : Nat
  deriving DecidableEq

/-- Stand-in for the Rust `as f32` narrowing cast on the opaque carrier. -/
def f64_as_f32 (x : F64) : F32 := ⟨x.bits % 2 ^ 32⟩

/-- The literal `0.0` used by `unwrap_or(0.0)`. -/
def f64zero : F64 := ⟨0⟩

/-- `beatsaver_api::models::enums::MapState`. -/
inductive MapState where
  | uploaded
  | testplay
  | published
  | feedback
  | scheduled
  deriving DecidableEq

/-- `beatsaver_api::models::enums::AIDeclarationType`. -/
inductive AIDeclarationType where
  | none
  | admin
  | uploader
  | sageScore
  deriving DecidableEq

/-- A characteristic enum value; only its `name()` is used by the cacher. -/
structure Characteristic where
  name : String
  deriving DecidableEq

/-- An environment enum value; only its `name()` is used by the cacher. -/
structure Environment where
  name : String
  deriving DecidableEq

/-- `beatsaver_api::models::map::MapDifficulty` (the fields the cacher reads). -/
structure MapDifficulty where
  njs : F64
  notes : Int
  characteristic : Characteristic
  difficulty : String
  environment : Option Environment
  ss_stars : Option F64
  bl_stars : Option F64
  cinema : Bool
  me : Bool
  chroma : Bool
  ne : Bool
  vivify : Bool
  deriving DecidableEq

/-- `beatsaver_api::models::map::MapVersion` (the fields the cacher reads). -/
structure MapVersion where
  hash : String
  state : MapState
  diffs : List MapDifficulty
  deriving DecidableEq

/-- The curator record; only its `name` is read. -/
structure Curator where
  name : String
  deriving DecidableEq

/-- Vote statistics of a map, `i32` counts modelled as `Int`. -/
structure MapStats where
  upvotes : Int
  downvotes : Int
  deriving DecidableEq

/-- The song/level metadata block of a map. `duration` is an `i32`. -/
structure SongMetadata where
  song_name : String
  song_sub_name : String
  song_author_name : String
  level_author_name : String
  duration : Int
  deriving DecidableEq

/-- `beatsaver_api::models::map::Map` / `MapDetail` (the fields the cacher
reads).  Timestamps are unix seconds modelled as `Int` (`i64`); `uploaded`
is the upload time and `last_published_at` the first-publication time,
distinct fields of the upstream model. -/
structure Map where
  id : String
  uploaded : Int
  last_published_at : Option Int
  updated_at : Option Int
  automapper : Bool
  declared_ai : AIDeclarationType
  curator : Option Curator
  stats : MapStats
  metadata : SongMetadata
  versions : List MapVersion
  deriving DecidableEq

/-- Output protobuf type `RankedValue`. -/
structure RankedValue where
  is_ranked : Bool
  stars : F32
  deriving DecidableEq

/-- Output protobuf type `Ranked`. -/
structure Ranked where
  score_saber : RankedValue
  beat_leader : RankedValue
  deriving DecidableEq

/-- Output protobuf type `Difficulty`. -/
structure Difficulty where
  njs : F32
  notes : Nat
  characteristic_name : String
  difficulty_name : String
  mods : Nat
  environment_name : String
  ranked : Ranked
  deriving DecidableEq

/-- Output protobuf type `Votes`; `u32` fields modelled as `Nat`. -/
structure Votes where
  up : Nat
  down : Nat
  deriving DecidableEq

/-- Output protobuf type `MapMetadata` (one OutputRecord). -/
structure MapMetadata where
  key : Nat
  hash : String
  song_name : String
  song_sub_name : String
  song_author_name : String
  level_author_name : String
  duration : Nat
  uploaded : Nat
  last_updated : Nat
  mods : Nat
  curator_name : Option String
  votes : Votes
  difficulties : List Difficulty
  deriving DecidableEq

/-- The snapshot association list standing in for
`HashMap<String, MapMetadata>`. -/
abbrev Snap := List (String × MapMetadata)

/-- Output protobuf type `MapList`, the snapshot container. -/
structure MapList where
  map_metadata : Snap
  deriving DecidableEq

/-- `HashMap::insert`: the new binding shadows any previous one. -/
def snapInsert (s : Snap) (k : String) (v : MapMetadata) : Snap := (k, v) :: s

/-- Lookup in the snapshot: first (most recent) binding wins. -/
def snapFind : Snap → String → Option MapMetadata
  | [], _ => Option.none
  | (k, v) :: rest, key => if k = key then some v else snapFind rest key

/-- Rust `b as u32` for a `bool`. -/
def boolToU32 (b : Bool) : Nat := if b then 1 else 0

/-- Rust `u32::try_from` on an integer source value: succeeds exactly on
values representable in 32 bits.  (For `i32` sources the upper test is
vacuous, matching `u32::try_from(i32)`.) -/
def u32_try_from (x : Int) : Option Nat :=
  if 0 ≤ x ∧ x < 2 ^ 32 then some x.toNat else Option.none

/-- The value of one hexadecimal digit, as accepted by
`u32::from_str_radix(_, 16)`. -/
def hexDigitVal (c : Char) : Option Nat :=
  if '0' ≤ c ∧ c ≤ '9' then some (c.toNat - '0'.toNat)
  else if 'a' ≤ c ∧ c ≤ 'f' then some (c.toNat - 'a'.toNat + 10)
  else if 'A' ≤ c ∧ c ≤ 'F' then some (c.toNat - 'A'.toNat + 10)
  else Option.none

/-- Accumulate hexadecimal digits left to right; fails on a non-digit. -/
def hexVal : List Char → Nat → Option Nat
  | [], acc => some acc
  | c :: rest, acc =>
    match hexDigitVal c with
    | Option.none => Option.none
    | some d => hexVal rest (acc * 16 + d)

/-- Rust `u32::from_str_radix(s, 16)`: optional leading `+`, then one or
more hex digits; fails on an empty digit string, a non-digit, or a value
not representable in 32 bits. -/
def u32_from_str_radix16 (s : String) : Option Nat :=
  let cs := match s.data with
    | '+' :: rest => rest
    | cs => cs
  match cs with
  | [] => Option.none
  | _ =>
    match hexVal cs 0 with
    | Option.none => Option.none
    | some n => if n < 2 ^ 32 then some n else Option.none

/-- The `MapMods` accumulator struct (cacher.rs lines 23-30); `Default`
derives all-false. -/
structure MapMods where
  cinema : Bool := false
  mapping_extensions : Bool := false
  chroma : Bool := false
  noodle_extensions : Bool := false
  vivify : Bool := false
  deriving DecidableEq

/-- Why `should_cache_map` rejected a map, mirroring the four distinct
`info!` log messages (cacher.rs lines 32-57). -/
inductive RejectReason where
  | notPublished
  | versionNotPublished
  | aiGenerated
  | automapped
  deriving DecidableEq

/-- The eligibility filter `should_cache_map` (cacher.rs lines 32-57),
instrumented with the rejection reason that the source logs.  The outer
`Option` is `none` exactly when the source panics: `map.versions[0]` is
evaluated on an empty versions vector.  The inner `Option RejectReason`
is the logged reason, `none` on acceptance. -/
def should_cache_map_reason (m : Map) : Option (Option RejectReason) :=
  if m.last_published_at.isNone then some (some RejectReason.notPublished)
  else
    match m.versions with
    | [] => Option.none
    | v0 :: _ =>
      if v0.state ≠ MapState.published then some (some RejectReason.versionNotPublished)
      else if m.declared_ai ≠ AIDeclarationType.none then some (some RejectReason.aiGenerated)
      else if m.automapper then some (some RejectReason.automapped)
      else some Option.none

/-- The eligibility filter `should_cache_map` (cacher.rs lines 32-57):
`some b` is the returned boolean, `none` the `map.versions[0]` panic on an
empty versions vector (reachable only when `last_published_at` is set). -/
def should_cache_map (m : Map) : Option Bool :=
  if m.last_published_at.isNone then some false
  else
    match m.versions with
    | [] => Option.none
    | v0 :: _ =>
      if v0.state ≠ MapState.published then some false
      else if m.declared_ai ≠ AIDeclarationType.none then some false
      else if m.automapper then some false
      else some true

/-- One pass of the `for diff in &map_version.diffs` body of `get_map_mods`
(cacher.rs lines 63-84): each flag is set to true when the difficulty sets
it, i.e. or-ed into the accumulator. -/
def mapModsStep (mods : MapMods) (diff : MapDifficulty) : MapMods :=
  { cinema := mods.cinema || diff.cinema
    mapping_extensions := mods.mapping_extensions || diff.me
    chroma := mods.chroma || diff.chroma
    noodle_extensions := mods.noodle_extensions || diff.ne
    vivify := mods.vivify || diff.vivify }

/-- `get_map_mods` (cacher.rs lines 59-87): fold the flag-merging loop over
the version's difficulties starting from `MapMods::default()`. -/
def get_map_mods (map_version : MapVersion) : MapMods :=
  map_version.diffs.foldl mapModsStep {}

/-- `generate_protobuf_ranked_values` (cacher.rs lines 89-101). -/
def generate_protobuf_ranked_values (diff : MapDifficulty) : Ranked :=
  { score_saber := { is_ranked := diff.ss_stars.isSome
                     stars := f64_as_f32 (diff.ss_stars.getD f64zero) }
    beat_leader := { is_ranked := diff.bl_stars.isSome
                     stars := f64_as_f32 (diff.bl_stars.getD f64zero) } }

/-- `generate_protobuf_map_mods` (cacher.rs lines 103-111). -/
def generate_protobuf_map_mods (map_version : MapVersion) : Nat :=
  let map_mods := get_map_mods map_version
  boolToU32 map_mods.cinema
    + (boolToU32 map_mods.mapping_extensions <<< 1)
    + (boolToU32 map_mods.chroma <<< 2)
    + (boolToU32 map_mods.noodle_extensions <<< 3)
    + (boolToU32 map_mods.vivify <<< 4)

/-- `generate_protobuf_diff_mods` (cacher.rs lines 113-119). -/
def generate_protobuf_diff_mods (diff : MapDifficulty) : Nat :=
  boolToU32 diff.cinema
    + (boolToU32 diff.me <<< 1)
    + (boolToU32 diff.chroma <<< 2)
    + (boolToU32 diff.ne <<< 3)
    + (boolToU32 diff.vivify <<< 4)

/-- The `for diff in &map_version.diffs` loop of `generate_protobuf_diffs`
(cacher.rs lines 124-134).  `none` models the
`diff.environment.as_ref().unwrap()` panic on a missing environment. -/
def generate_protobuf_diffs_go : List MapDifficulty → Option (List Difficulty)
  | [] => some []
  | diff :: rest =>
    match diff.environment with
    | Option.none => Option.none
    | some env =>
      match generate_protobuf_diffs_go rest with
      | Option.none => Option.none
      | some ds =>
        some ({ njs := f64_as_f32 diff.njs
                notes := (u32_try_from diff.notes).getD 0
                characteristic_name := diff.characteristic.name
                difficulty_name := diff.difficulty
                mods := generate_protobuf_diff_mods diff
                environment_name := env.name
                ranked := generate_protobuf_ranked_values diff } :: ds)

/-- `generate_protobuf_diffs` (cacher.rs lines 121-137); `none` is the
environment-unwrap panic. -/
def generate_protobuf_diffs (map_version : MapVersion) : Option (List Difficulty) :=
  generate_protobuf_diffs_go map_version.diffs

/-- `generate_protobuf_curator` (cacher.rs lines 139-145). -/
def generate_protobuf_curator (m : Map) : Option String :=
  match m.curator with
  | some c => some c.name
  | Option.none => Option.none

/-- `generate_protobuf_votes` (cacher.rs lines 147-152):
`u32::try_from(_).unwrap_or(0)` on each count. -/
def generate_protobuf_votes (up : Int) (down : Int) : Votes :=
  { up := (u32_try_from up).getD 0
    down := (u32_try_from down).getD 0 }

/-- Result of running the record encoder on one entry.  `crash` models a
Rust panic (`unwrap` failure or index panic) terminating the process,
`dropped` the `None` return (entry silently skipped), `ok` a produced
record. -/
inductive EncodeResult where
  | crash
  | dropped
  | ok (record : MapMetadata)
  deriving DecidableEq

/-- Whether the encoder produced a record. -/
def EncodeResult.isOk : EncodeResult → Bool
  | EncodeResult.ok _ => true
  | _ => false

/-- `cache_map_data` (cacher.rs lines 154-180), with the field initialisers
evaluated in source order: filter, then `u32::from_str_radix(&map.id, 16)
.unwrap()`, then `map.versions[0]` (for `hash`), then
`u32::try_from(duration).ok().unwrap()`, then
`u32::try_from(map.last_published_at?.timestamp()).ok().unwrap()`, then
`u32::try_from(map.updated_at?.timestamp()).ok().unwrap()`, then the
difficulty conversion with its environment unwrap. -/
def cache_map_data (m : Map) : EncodeResult :=
  match should_cache_map m with
  | Option.none => EncodeResult.crash
  | some false => EncodeResult.dropped
  | some true =>
    match u32_from_str_radix16 m.id with
    | Option.none => EncodeResult.crash
    | some key =>
      match m.versions with
      | [] => EncodeResult.crash
      | v0 :: _ =>
        match u32_try_from m.metadata.duration with
        | Option.none => EncodeResult.crash
        | some dur =>
          match m.last_published_at with
          | Option.none => EncodeResult.dropped
          | some lp =>
            match u32_try_from lp with
            | Option.none => EncodeResult.crash
            | some upl =>
              match m.updated_at with
              | Option.none => EncodeResult.dropped
              | some ua =>
                match u32_try_from ua with
                | Option.none => EncodeResult.crash
                | some lu =>
                  match generate_protobuf_diffs v0 with
                  | Option.none => EncodeResult.crash
                  | some diffs =>
                    EncodeResult.ok
                      { key := key
                        hash := v0.hash
                        song_name := m.metadata.song_name
                        song_sub_name := m.metadata.song_sub_name
                        song_author_name := m.metadata.song_author_name
                        level_author_name := m.metadata.level_author_name
                        duration := dur
                        uploaded := upl
                        last_updated := lu
                        mods := generate_protobuf_map_mods v0
                        curator_name := generate_protobuf_curator m
                        votes := generate_protobuf_votes m.stats.upvotes m.stats.downvotes
                        difficulties := diffs }

/-- One outcome of `client.latest(&params)` in the harvest loop
(cacher.rs lines 198-244): a page of maps, a `ClientError::ReqwestError`
(transient network/status failure) or a `ClientError::SerdeError`
(unparseable response body). -/
inductive Response where
  | ok (docs : List Map)
  | reqwestErr
  | serdeErr
  deriving DecidableEq

/-- The mutable state of `init_cache` (cacher.rs lines 183-189):
`current_time` cursor, `last_map` and the accumulated `map_list`. -/
structure LoopState where
  current_time : Int
  last_map : Option Map
  map_list : MapList
  deriving DecidableEq

/-- One pass of the `for map_data in data.docs` body (cacher.rs lines
208-215): the snapshot insert and the `last_map` update happen only when
`cache_map_data` returns `Some`; a panic inside the encoder kills the
whole run (`none`). -/
def stepEntry (ml : MapList) (last : Option Map) (m : Map) :
    Option (MapList × Option Map) :=
  match cache_map_data m with
  | EncodeResult.crash => Option.none
  | EncodeResult.dropped => some (ml, last)
  | EncodeResult.ok r => some (⟨snapInsert ml.map_metadata m.id r⟩, some m)

/-- The whole `for map_data in data.docs` loop over one page. -/
def processDocs : List Map → MapList → Option Map → Option (MapList × Option Map)
  | [], ml, last => some (ml, last)
  | m :: rest, ml, last =>
    match stepEntry ml last m with
    | Option.none => Option.none
    | some (ml', last') => processDocs rest ml' last'

/-- The cursor recomputation `if let Some(ref map) = last_map
{ current_time = map.uploaded }` (cacher.rs lines 219-224): the cursor
moves to the `uploaded` timestamp of the tracked map and is left unchanged
when no map has been cached yet. -/
def cursorUpdate (t : Int) : Option Map → Int
  | some m => m.uploaded
  | Option.none => t

/-- Handling of one non-empty page inside the `Ok` branch of the harvest
loop (cacher.rs lines 207-227): process every entry, then recompute the
cursor from `last_map`. -/
def stepPage (docs : List Map) (st : LoopState) : Option LoopState :=
  match processDocs docs st.map_list st.last_map with
  | Option.none => Option.none
  | some (ml, last) =>
    some { current_time := cursorUpdate st.current_time last
           last_map := last
           map_list := ml }

/-- The `while caching` loop of `init_cache` (cacher.rs lines 191-245),
driven by a script of client responses consumed one per query.  `some st`
is the `Done` exit taken exactly when a page comes back empty
(`caching = false`); `none` means the run never reaches `Done` within the
script or dies in a panic.  A `ReqwestError` backs off and retries with
the same state; a `SerdeError` is logged and the loop re-queries with the
same state. -/
def init_cache_loop : List Response → LoopState → Option LoopState
  | [], _ => Option.none
  | Response.ok [] :: _, st => some st
  | Response.ok (m :: docs) :: rest, st =>
    match stepPage (m :: docs) st with
    | Option.none => Option.none
    | some st' => init_cache_loop rest st'
  | Response.reqwestErr :: rest, st => init_cache_loop rest st
  | Response.serdeErr :: rest, st => init_cache_loop rest st

/-- `init_cache` (cacher.rs lines 182-248): start from the wall-clock
cursor `t0`, no `last_map`, an empty snapshot, and run the loop over the
response script. -/
def init_cache (script : List Response) (t0 : Int) : Option LoopState :=
  init_cache_loop script { current_time := t0, last_map := Option.none, map_list := ⟨[]⟩ }

/-- Projection used to state counterexamples about the final cursor. -/
def cursorOfResult : Option LoopState → Option Int
  | some st => some st.current_time
  | Option.none => Option.none

/-- Projection used to state witnesses about an encoder result's mods. -/
def encodedMods : EncodeResult → Option Nat
  | EncodeResult.ok r => some r.mods
  | _ => Option.none

/-- The snapshot invariant of spec section 3: every record in the snapshot
comes from an entry that passed the eligibility filter. -/
def SnapInv (snap : Snap) : Prop :=
  ∀ p, p ∈ snap →
    ∃ m : Map, should_cache_map m = some true
      ∧ cache_map_data m = EncodeResult.ok p.2 ∧ p.1 = m.id

/-- `write_cache` (cacher.rs lines 251-270) with its effects injected:
`enc` is `prost::Message::encode_to_vec`, `gz_write_all` the compressor
write whose result the source discards with `let _ =`, `gz_finish` the
`gz.finish()` result that the source `unwrap`s (so an error is a panic,
modelled `none`), and `fs_write` the `fs::write` whose error alone yields
`false`. -/
def write_cache (map_list : MapList) (path : String)
    (enc : MapList → List Nat)
    (gz_write_all : List Nat → Except Unit Unit)
    (gz_finish : Except Unit (List Nat))
    (fs_write : String → List Nat → Except Unit Unit) : Option Bool :=
  let _ := gz_write_all (enc map_list)
  match gz_finish with
  | Except.error _ => Option.none
  | Except.ok compressed =>
    match fs_write path compressed with
    | Except.ok _ => some true
    | Except.error _ => some false

namespace protogen

/-- `generate_protobuf_ranked_values` (protogen.rs lines 11-23). -/
def generate_protobuf_ranked_values (diff : MapDifficulty) : Ranked :=
  { score_saber := { is_ranked := diff.ss_stars.isSome
                     stars := f64_as_f32 (diff.ss_stars.getD f64zero) }
    beat_leader := { is_ranked := diff.bl_stars.isSome
                     stars := f64_as_f32 (diff.bl_stars.getD f64zero) } }

/-- `generate_protobuf_map_mods` (protogen.rs lines 26-34); it calls the
same `cacher::get_map_mods`. -/
def generate_protobuf_map_mods (map_version : MapVersion) : Nat :=
  let map_mods := get_map_mods map_version
  boolToU32 map_mods.cinema
    + (boolToU32 map_mods.mapping_extensions <<< 1)
    + (boolToU32 map_mods.chroma <<< 2)
    + (boolToU32 map_mods.noodle_extensions <<< 3)
    + (boolToU32 map_mods.vivify <<< 4)

/-- `generate_protobuf_diff_mods` (protogen.rs lines 37-43). -/
def generate_protobuf_diff_mods (diff : MapDifficulty) : Nat :=
  boolToU32 diff.cinema
    + (boolToU32 diff.me <<< 1)
    + (boolToU32 diff.chroma <<< 2)
    + (boolToU32 diff.ne <<< 3)
    + (boolToU32 diff.vivify <<< 4)

/-- The `for diff in &map_version.diffs` loop of `generate_protobuf_diffs`
(protogen.rs lines 49-59). -/
def generate_protobuf_diffs_go : List MapDifficulty → Option (List Difficulty)
  | [] => some []
  | diff :: rest =>
    match diff.environment with
    | Option.none => Option.none
    | some env =>
      match generate_protobuf_diffs_go rest with
      | Option.none => Option.none
      | some ds =>
        some ({ njs := f64_as_f32 diff.njs
                notes := (u32_try_from diff.notes).getD 0
                characteristic_name := diff.characteristic.name
                difficulty_name := diff.difficulty
                mods := generate_protobuf_diff_mods diff
                environment_name := env.name
                ranked := generate_protobuf_ranked_values diff } :: ds)

/-- `generate_protobuf_diffs` (protogen.rs lines 46-62). -/
def generate_protobuf_diffs (map_version : MapVersion) : Option (List Difficulty) :=
  generate_protobuf_diffs_go map_version.diffs

/-- `generate_protobuf_curator` (protogen.rs lines 65-71). -/
def generate_protobuf_curator (m : Map) : Option String :=
  match m.curator with
  | some c => some c.name
  | Option.none => Option.none

/-- `generate_protobuf_votes` (protogen.rs lines 74-79). -/
def generate_protobuf_votes (up : Int) (down : Int) : Votes :=
  { up := (u32_try_from up).getD 0
    down := (u32_try_from down).getD 0 }

end protogen

/-- Spec-side per-difficulty flag mask, written from the spec's bit order:
bit 0 = cinema, 1 = mapping-extensions, 2 = chroma, 3 = noodle-extensions,
4 = vivify. -/
def packMask (c me ch ne vi : Bool) : Nat :=
  boolToU32 c ||| (boolToU32 me <<< 1) ||| (boolToU32 ch <<< 2)
    ||| (boolToU32 ne <<< 3) ||| (boolToU32 vi <<< 4)

/-- Spec-side description of `last_map` tracking: fold over the page, the
entry replaces the tracked map exactly when the encoder produced a record
for it. -/
def lastCachedSpec : Option Map → List Map → Option Map
  | last, [] => last
  | last, m :: rest =>
    lastCachedSpec (if (cache_map_data m).isOk then some m else last) rest

/-- The initial loop state with wall-clock time 2000, used by witnesses. -/
def initState : LoopState :=
  { current_time := 2000, last_map := Option.none, map_list := ⟨[]⟩ }

/-- A published version with no difficulties. -/
def v1 : MapVersion := { hash := "h1", state := MapState.published, diffs := [] }

/-- An eligible map: id `a` (hex 10), uploaded at 900, first published at
1000, updated at 1100. -/
def m1 : Map :=
  { id := "a", uploaded := 900, last_published_at := some 1000
    updated_at := some 1100, automapper := false
    declared_ai := AIDeclarationType.none, curator := Option.none
    stats := { upvotes := 1, downvotes := 2 }
    metadata := { song_name := "s", song_sub_name := "", song_author_name := "sa"
                  level_author_name := "la", duration := 60 }
    versions := [v1] }

/-- A published version with no difficulties. -/
def v2 : MapVersion := { hash := "h2", state := MapState.published, diffs := [] }

/-- An auto-mapped (hence ineligible) map: id `b`, uploaded at 450, first
published at 500. -/
def m2 : Map :=
  { id := "b", uploaded := 450, last_published_at := some 500
    updated_at := some 500, automapper := true
    declared_ai := AIDeclarationType.none, curator := Option.none
    stats := { upvotes := 0, downvotes := 0 }
    metadata := { song_name := "t", song_sub_name := "", song_author_name := "sb"
                  level_author_name := "lb", duration := 70 }
    versions := [v2] }

/-- A published version with no difficulties. -/
def v3 : MapVersion := { hash := "h3", state := MapState.published, diffs := [] }

/-- An eligible map: id `c` (hex 12), uploaded at 800, first published at
850, updated at 860. -/
def m3 : Map :=
  { id := "c", uploaded := 800, last_published_at := some 850
    updated_at := some 860, automapper := false
    declared_ai := AIDeclarationType.none, curator := Option.none
    stats := { upvotes := 3, downvotes := 4 }
    metadata := { song_name := "u", song_sub_name := "", song_author_name := "sc"
                  level_author_name := "lc", duration := 80 }
    versions := [v3] }

/-- A map that passes the eligibility filter but whose id `zz` is not
valid hexadecimal, so `u32::from_str_radix(.., 16).unwrap()` panics. -/
def mBadHex : Map :=
  { id := "zz", uploaded := 900, last_published_at := some 1000
    updated_at := some 1100, automapper := false
    declared_ai := AIDeclarationType.none, curator := Option.none
    stats := { upvotes := 1, downvotes := 2 }
    metadata := { song_name := "s", song_sub_name := "", song_author_name := "sa"
                  level_author_name := "la", duration := 60 }
    versions := [v1] }

/-- A map that passes the eligibility filter but has no last-updated
timestamp, so `map.updated_at?` drops it. -/
def mNoUpdated : Map :=
  { id := "d", uploaded := 900, last_published_at := some 1000
    updated_at := Option.none, automapper := false
    declared_ai := AIDeclarationType.none, curator := Option.none
    stats := { upvotes := 1, downvotes := 2 }
    metadata := { song_name := "s", song_sub_name := "", song_author_name := "sa"
                  level_author_name := "la", duration := 60 }
    versions := [v1] }

/-- A map with a first-publication timestamp but an empty versions list:
`map.versions[0]` in the filter panics on it. -/
def mNoVersions : Map :=
  { id := "e", uploaded := 4, last_published_at := some 5
    updated_at := some 6, automapper := false
    declared_ai := AIDeclarationType.none, curator := Option.none
    stats := { upvotes := 0, downvotes := 0 }
    metadata := { song_name := "s", song_sub_name := "", song_author_name := "sa"
                  level_author_name := "la", duration := 60 }
    versions := [] }

/-- A difficulty requiring only chroma. -/
def dChroma : MapDifficulty :=
  { njs := ⟨10⟩, notes := 5, characteristic := { name := "Standard" }
    difficulty := "Easy", environment := some { name := "DefaultEnvironment" }
    ss_stars := Option.none, bl_stars := Option.none
    cinema := false, me := false, chroma := true, ne := false, vivify := false }

/-- A published version with the single chroma-only difficulty. -/
def vChroma : MapVersion :=
  { hash := "hc", state := MapState.published, diffs := [dChroma] }

/-- An eligible map whose first version has one chroma-only difficulty. -/
def mChroma : Map :=
  { id := "f", uploaded := 700, last_published_at := some 710
    updated_at := some 720, automapper := false
    declared_ai := AIDeclarationType.none, curator := Option.none
    stats := { upvotes := 9, downvotes := 1 }
    metadata := { song_name := "w", song_sub_name := "", song_author_name := "sw"
                  level_author_name := "lw", duration := 95 }
    versions := [vChroma] }

/-- An empty snapshot container, used by the write_cache witnesses. -/
def emptyMapList : MapList := ⟨[]⟩

/-- A constant serializer standing in for `encode_to_vec`. -/
def encConst : MapList → List Nat := fun _ => [7]

/-- A compressor write that fails. -/
def gzwErr : List Nat → Except Unit Unit := fun _ => Except.error ()

/-- A compressor write that succeeds. -/
def gzwOk : List Nat → Except Unit Unit := fun _ => Except.ok ()

/-- A failing `gz.finish()` outcome. -/
def finErrU : Except Unit (List Nat) := Except.error ()

/-- A successful `gz.finish()` outcome producing one byte. -/
def finOkOne : Except Unit (List Nat) := Except.ok [1]

/-- A filesystem write that succeeds. -/
def fswOk : String → List Nat → Except Unit Unit := fun _ _ => Except.ok ()

/-- A filesystem write that fails. -/
def fswErr : String → List Nat → Except Unit Unit := fun _ _ => Except.error ()

/-- The bit packing of a `MapMods` value as performed by
`generate_protobuf_map_mods`; extracted so the fold lemmas can speak about
intermediate accumulators. -/
def packOfMods (mm : MapMods) : Nat :=
  boolToU32 mm.cinema
    + (boolToU32 mm.mapping_extensions <<< 1)
    + (boolToU32 mm.chroma <<< 2)
    + (boolToU32 mm.noodle_extensions <<< 3)
    + (boolToU32 mm.vivify <<< 4)

/-- The output record that `cache_map_data` produces for `m1`. -/
def rec1 : MapMetadata :=
  { key := 10, hash := "h1", song_name := "s", song_sub_name := ""
    song_author_name := "sa", level_author_name := "la", duration := 60
    uploaded := 1000, last_updated := 1100, mods := 0
    curator_name := Option.none, votes := { up := 1, down := 2 }
    difficulties := [] }

/-- The output record that `cache_map_data` produces for `mChroma`. -/
def recChroma : MapMetadata :=
  { key := 15, hash := "hc", song_name := "w", song_sub_name := ""
    song_author_name := "sw", level_author_name := "lw", duration := 95
    uploaded := 710, last_updated := 720, mods := 4
    curator_name := Option.none, votes := { up := 9, down := 1 }
    difficulties :=
      [{ njs := ⟨10⟩, notes := 5, characteristic_name := "Standard"
         difficulty_name := "Easy", mods := 4
         environment_name := "DefaultEnvironment"
         ranked := { score_saber := { is_ranked := false, stars := ⟨0⟩ }
                     beat_leader := { is_ranked := false, stars := ⟨0⟩ } } }] }

/-- The loop state after processing the page `[m1, m2]` from `initState`. -/
def st1val : LoopState :=
  { current_time := 900, last_map := some m1, map_list := ⟨[("a", rec1)]⟩ }

/-- Producing a record implies the filter accepted the entry: the `ok`
branch of `cache_map_data` sits under the `some true` branch of the
filter. -/
theorem cache_ok_filter (m : Map) (r : MapMetadata)
    (h : cache_map_data m = EncodeResult.ok r) : should_cache_map m = some true := by
  cases hsc : should_cache_map m with
  | none =>
    unfold cache_map_data at h
    rw [hsc] at h
    exact (EncodeResult.noConfusion h)
  | some b =>
    cases b with
    | true => rfl
    | false =>
      unfold cache_map_data at h
      rw [hsc] at h
      exact (EncodeResult.noConfusion h)

/-- An accepted entry has a publication timestamp and a first version. -/
theorem should_cache_map_true_inv (m : Map) (h : should_cache_map m = some true) :
    m.last_published_at ≠ Option.none ∧ ∃ v0 vs, m.versions = v0 :: vs := by
  unfold should_cache_map at h
  by_cases hlp : m.last_published_at.isNone
  · rw [if_pos hlp] at h
    exact absurd (Option.some.inj h) (by simp)
  · rw [if_neg hlp] at h
    refine ⟨fun hn => hlp (by rw [hn]; rfl), ?_⟩
    cases hv : m.versions with
    | nil => rw [hv] at h; exact (Option.noConfusion h)
    | cons v0 vs => exact ⟨v0, vs, rfl⟩

/-- Inversion of a successful encoding: the record's `mods` field is the
packed map mods of the first version. -/
theorem cache_ok_mods (m : Map) (r : MapMetadata)
    (h : cache_map_data m = EncodeResult.ok r) :
    ∃ v0 vs, m.versions = v0 :: vs ∧ r.mods = generate_protobuf_map_mods v0 := by
  have hf : should_cache_map m = some true := cache_ok_filter m r h
  obtain ⟨-, v0, vs, hv⟩ := should_cache_map_true_inv m hf
  refine ⟨v0, vs, hv, ?_⟩
  unfold cache_map_data at h
  simp only [hf, hv] at h
  cases hk : u32_from_str_radix16 m.id with
  | none => simp only [hk] at h; exact (EncodeResult.noConfusion h)
  | some key =>
    simp only [hk] at h
    cases hd : u32_try_from m.metadata.duration with
    | none => simp only [hd] at h; exact (EncodeResult.noConfusion h)
    | some dur =>
      simp only [hd] at h
      cases hlp : m.last_published_at with
      | none => simp only [hlp] at h; exact (EncodeResult.noConfusion h)
      | some lp =>
        simp only [hlp] at h
        cases hup : u32_try_from lp with
        | none => simp only [hup] at h; exact (EncodeResult.noConfusion h)
        | some upl =>
          simp only [hup] at h
          cases hua : m.updated_at with
          | none => simp only [hua] at h; exact (EncodeResult.noConfusion h)
          | some ua =>
            simp only [hua] at h
            cases hlu : u32_try_from ua with
            | none => simp only [hlu] at h; exact (EncodeResult.noConfusion h)
            | some lu =>
              simp only [hlu] at h
              cases hgd : generate_protobuf_diffs v0 with
              | none => simp only [hgd] at h; exact (EncodeResult.noConfusion h)
              | some diffs =>
                simp only [hgd] at h
                injection h with h
                rw [← h]

/-- Packing distributes over the or-merge of one difficulty's flags. -/
theorem pack_or (a1 a2 a3 a4 a5 b1 b2 b3 b4 b5 : Bool) :
    packOfMods ⟨a1 || b1, a2 || b2, a3 || b3, a4 || b4, a5 || b5⟩ =
      packOfMods ⟨a1, a2, a3, a4, a5⟩ ||| packMask b1 b2 b3 b4 b5 := by
  cases a1 <;> cases a2 <;> cases a3 <;> cases a4 <;> cases a5 <;>
    cases b1 <;> cases b2 <;> cases b3 <;> cases b4 <;> cases b5 <;> decide

/-- The packed accumulator of the `get_map_mods` fold equals the or-fold of
the per-difficulty masks. -/
theorem get_map_mods_fold : ∀ (ds : List MapDifficulty) (a : MapMods),
    packOfMods (List.foldl mapModsStep a ds) =
      ds.foldl (fun acc d => acc ||| packMask d.cinema d.me d.chroma d.ne d.vivify)
        (packOfMods a) := by
  intro ds
  induction ds with
  | nil => intro a; rfl
  | cons d rest ih =>
    intro a
    rw [List.foldl_cons, List.foldl_cons, ih]
    cases a with
    | mk a1 a2 a3 a4 a5 =>
      exact congrArg (fun x => List.foldl _ x rest)
        (pack_or a1 a2 a3 a4 a5 d.cinema d.me d.chroma d.ne d.vivify)

/-- `last_map` after a page equals the spec-side last-cached fold. -/
theorem processDocs_last : ∀ (docs : List Map) (ml : MapList) (last : Option Map)
    (ml' : MapList) (last' : Option Map),
    processDocs docs ml last = some (ml', last') → last' = lastCachedSpec last docs := by
  intro docs
  induction docs with
  | nil =>
    intro ml last ml' last' h
    simp only [processDocs, Option.some.injEq, Prod.mk.injEq] at h
    exact h.2.symm
  | cons m rest ih =>
    intro ml last ml' last' h
    cases hcm : cache_map_data m with
    | crash =>
      simp only [processDocs, stepEntry, hcm] at h
      exact (Option.noConfusion h)
    | dropped =>
      simp only [processDocs, stepEntry, hcm] at h
      have := ih ml last ml' last' h
      simpa [lastCachedSpec, EncodeResult.isOk, hcm] using this
    | ok r =>
      simp only [processDocs, stepEntry, hcm] at h
      have := ih _ _ _ _ h
      simpa [lastCachedSpec, EncodeResult.isOk, hcm] using this

/-- A page with no panicking entry is processed to completion. -/
theorem processDocs_total : ∀ (docs : List Map) (ml : MapList) (last : Option Map),
    (∀ m, m ∈ docs → cache_map_data m ≠ EncodeResult.crash) →
    ∃ out, processDocs docs ml last = some out := by
  intro docs
  induction docs with
  | nil => exact fun ml last _ => ⟨(ml, last), rfl⟩
  | cons m rest ih =>
    intro ml last hnc
    cases hcm : cache_map_data m with
    | crash => exact absurd hcm (hnc m (List.mem_cons_self m rest))
    | dropped =>
      obtain ⟨out, hout⟩ := ih ml last (fun x hx => hnc x (List.mem_cons_of_mem m hx))
      exact ⟨out, by simp only [processDocs, stepEntry, hcm]; exact hout⟩
    | ok r =>
      obtain ⟨out, hout⟩ :=
        ih ⟨snapInsert ml.map_metadata m.id r⟩ (some m)
          (fun x hx => hnc x (List.mem_cons_of_mem m hx))
      exact ⟨out, by simp only [processDocs, stepEntry, hcm]; exact hout⟩

/-- Membership in the snapshot after a page: old keys plus the ids of the
successfully encoded entries of the page. -/
theorem processDocs_find : ∀ (docs : List Map) (ml : MapList) (last : Option Map)
    (ml' : MapList) (last' : Option Map),
    processDocs docs ml last = some (ml', last') →
    ∀ k, (snapFind ml'.map_metadata k).isSome = true ↔
      ((snapFind ml.map_metadata k).isSome = true ∨
        ∃ m, m ∈ docs ∧ m.id = k ∧ (cache_map_data m).isOk = true) := by
  intro docs
  induction docs with
  | nil =>
    intro ml last ml' last' h k
    simp only [processDocs, Option.some.injEq, Prod.mk.injEq] at h
    rw [← h.1]
    simp
  | cons m rest ih =>
    intro ml last ml' last' h k
    cases hcm : cache_map_data m with
    | crash =>
      simp only [processDocs, stepEntry, hcm] at h
      exact (Option.noConfusion h)
    | dropped =>
      simp only [processDocs, stepEntry, hcm] at h
      rw [ih ml last ml' last' h k]
      constructor
      · rintro (hold | ⟨m', hm', hid, hok⟩)
        · exact Or.inl hold
        · exact Or.inr ⟨m', List.mem_cons_of_mem m hm', hid, hok⟩
      · rintro (hold | ⟨m', hm', hid, hok⟩)
        · exact Or.inl hold
        · rcases List.mem_cons.mp hm' with heq | hmem
          · rw [heq, hcm] at hok
            exact absurd hok (by simp [EncodeResult.isOk])
          · exact Or.inr ⟨m', hmem, hid, hok⟩
    | ok r =>
      simp only [processDocs, stepEntry, hcm] at h
      rw [ih _ _ _ _ h k]
      by_cases hid : m.id = k
      · constructor
        · intro _
          exact Or.inr ⟨m, List.mem_cons_self m rest, hid, by simp [EncodeResult.isOk, hcm]⟩
        · intro _
          exact Or.inl (by simp [snapInsert, snapFind, hid])
      · constructor
        · rintro (hnew | ⟨m', hm', hid', hok⟩)
          · simp only [snapInsert, snapFind, if_neg hid] at hnew
            exact Or.inl hnew
          · exact Or.inr ⟨m', List.mem_cons_of_mem m hm', hid', hok⟩
        · rintro (hold | ⟨m', hm', hid', hok⟩)
          · exact Or.inl (by simp [snapInsert, snapFind, if_neg hid, hold])
          · rcases List.mem_cons.mp hm' with heq | hmem
            · rw [heq] at hid'
              exact absurd hid' hid
            · exact Or.inr ⟨m', hmem, hid', hok⟩

/-- Once some map has been cached, the last-cached fold stays `some`. -/
theorem lastCachedSpec_some : ∀ (ds : List Map) (m : Map),
    (lastCachedSpec (some m) ds).isSome = true := by
  intro ds
  induction ds with
  | nil => intro m; rfl
  | cons d rest ih =>
    intro m
    cases hik : (cache_map_data d).isOk with
    | true => simpa [lastCachedSpec, hik] using ih d
    | false => simpa [lastCachedSpec, hik] using ih m

/-- The last-cached fold over an appended page list. -/
theorem lastCachedSpec_append : ∀ (xs ys : List Map) (last : Option Map),
    lastCachedSpec last (xs ++ ys) = lastCachedSpec (lastCachedSpec last xs) ys := by
  intro xs
  induction xs with
  | nil => intro ys last; rfl
  | cons x rest ih =>
    intro ys last
    rw [List.cons_append, lastCachedSpec, lastCachedSpec]
    exact ih ys _

/-- One-entry preservation of the snapshot invariant. -/
theorem stepEntry_inv (ml : MapList) (last : Option Map) (m : Map)
    (ml' : MapList) (last' : Option Map)
    (hinv : SnapInv ml.map_metadata) (h : stepEntry ml last m = some (ml', last')) :
    SnapInv ml'.map_metadata := by
  cases hcm : cache_map_data m with
  | crash =>
    simp only [stepEntry, hcm] at h
    exact (Option.noConfusion h)
  | dropped =>
    simp only [stepEntry, hcm, Option.some.injEq, Prod.mk.injEq] at h
    rw [← h.1]
    exact hinv
  | ok r =>
    simp only [stepEntry, hcm, Option.some.injEq, Prod.mk.injEq] at h
    rw [← h.1]
    intro p hp
    rcases List.mem_cons.mp hp with hpe | hpm
    · exact ⟨m, cache_ok_filter m r hcm, by rw [hpe, hcm], by rw [hpe]⟩
    · exact hinv p hpm

/-- Page-level preservation of the snapshot invariant. -/
theorem processDocs_inv : ∀ (docs : List Map) (ml : MapList) (last : Option Map)
    (ml' : MapList) (last' : Option Map),
    SnapInv ml.map_metadata → processDocs docs ml last = some (ml', last') →
    SnapInv ml'.map_metadata := by
  intro docs
  induction docs with
  | nil =>
    intro ml last ml' last' hinv h
    simp only [processDocs, Option.some.injEq, Prod.mk.injEq] at h
    rw [← h.1]
    exact hinv
  | cons m rest ih =>
    intro ml last ml' last' hinv h
    cases hse : stepEntry ml last m with
    | none =>
      simp only [processDocs, hse] at h
      exact (Option.noConfusion h)
    | some out =>
      obtain ⟨ml1, last1⟩ := out
      simp only [processDocs, hse] at h
      exact ih ml1 last1 ml' last' (stepEntry_inv ml last m ml1 last1 hinv hse) h

/-- Inversion of a successful page step: the new state is determined by
the processed snapshot and the last-cached fold. -/
theorem stepPage_inv (docs : List Map) (st st' : LoopState)
    (h : stepPage docs st = some st') :
    ∃ ml, processDocs docs st.map_list st.last_map = some (ml, st'.last_map)
      ∧ st'.last_map = lastCachedSpec st.last_map docs
      ∧ st'.current_time = cursorUpdate st.current_time (lastCachedSpec st.last_map docs)
      ∧ st'.map_list = ml := by
  unfold stepPage at h
  cases hpd : processDocs docs st.map_list st.last_map with
  | none => rw [hpd] at h; exact (Option.noConfusion h)
  | some out =>
    obtain ⟨ml, last⟩ := out
    simp only [hpd, Option.some.injEq] at h
    have hl : last = lastCachedSpec st.last_map docs :=
      processDocs_last docs st.map_list st.last_map ml last hpd
    subst h
    exact ⟨ml, rfl, hl, congrArg (cursorUpdate st.current_time) hl, rfl⟩

/-- Loop-level preservation of the snapshot invariant. -/
theorem init_cache_loop_inv : ∀ (script : List Response) (st st' : LoopState),
    SnapInv st.map_list.map_metadata → init_cache_loop script st = some st' →
    SnapInv st'.map_list.map_metadata := by
  intro script
  induction script with
  | nil => intro st st' _ h; exact (Option.noConfusion h)
  | cons resp rest ih =>
    intro st st' hinv h
    cases resp with
    | ok docs =>
      cases docs with
      | nil =>
        simp only [init_cache_loop, Option.some.injEq] at h
        rw [← h]
        exact hinv
      | cons m ds =>
        simp only [init_cache_loop] at h
        cases hsp : stepPage (m :: ds) st with
        | none =>
          simp only [hsp] at h
          exact (Option.noConfusion h)
        | some st1 =>
          simp only [hsp] at h
          obtain ⟨ml, hpd, -, -, hml⟩ := stepPage_inv (m :: ds) st st1 hsp
          have hinv1 : SnapInv st1.map_list.map_metadata := by
            rw [hml]
            exact processDocs_inv (m :: ds) st.map_list st.last_map ml st1.last_map hinv hpd
          exact ih st1 st' hinv1 h
    | reqwestErr =>
      simp only [init_cache_loop] at h
      exact ih st st' hinv h
    | serdeErr =>
      simp only [init_cache_loop] at h
      exact ih st st' hinv h

/-- The two copies of the difficulty-conversion loop agree. -/
theorem protogen_diffs_go_eq : ∀ (ds : List MapDifficulty),
    protogen.generate_protobuf_diffs_go ds = generate_protobuf_diffs_go ds := by
  intro ds
  induction ds with
  | nil => rfl
  | cons d rest ih =>
    cases henv : d.environment with
    | none =>
      simp only [protogen.generate_protobuf_diffs_go, generate_protobuf_diffs_go, henv]
    | some env =>
      simp only [protogen.generate_protobuf_diffs_go, generate_protobuf_diffs_go, henv, ih,
        protogen.generate_protobuf_diff_mods, generate_protobuf_diff_mods,
        protogen.generate_protobuf_ranked_values, generate_protobuf_ranked_values]

/-- Claim C1 (counterexample): over the page `[m1, m2]` whose last entry
`m2` is rejected by the filter (auto-mapped), the cursor after the page is
900 = `m1.uploaded`, not 500 = `m2`'s first-publication timestamp as the
claim predicts, and not 1000 = `m1`'s first-publication timestamp either:
the tracked entry is the last cached entry, not the last entry in page
order, and the cursor takes its upload time, not its first-publication
time. -/
theorem c1_counterexample :
    cursorOfResult (init_cache [Response.ok [m1, m2], Response.ok []] 2000) = some 900
  ∧ m2.last_published_at = some 500 ∧ m1.uploaded = 900 ∧ m1.last_published_at = some 1000
  ∧ ¬((900 : Int) = 500) ∧ ¬((900 : Int) = 1000) := by decide

/-- Claim C1 (amended): after a successful non-empty page step, the entry
used to recompute the cursor is the last entry of the page in page order
that was successfully cached (falling back to the previously tracked
entry, the cursor staying unchanged when there is none), and the new
cursor is that entry's upload timestamp. -/
theorem c1_amended_cursor (docs : List Map) (st st' : LoopState)
    (_hne : docs ≠ []) (h : stepPage docs st = some st') :
    st'.last_map = lastCachedSpec st.last_map docs
  ∧ st'.current_time = cursorUpdate st.current_time (lastCachedSpec st.last_map docs) := by
  obtain ⟨ml, -, hl, hc, -⟩ := stepPage_inv docs st st' h
  exact ⟨hl, hc⟩

/-- Witness for C1 (amended) at the concrete page `[m1, m2]`. -/
theorem c1_amended_cursor_witness :
    stepPage [m1, m2] initState = some st1val ∧ st1val.current_time = 900 :=
  ⟨by decide,
    ((c1_amended_cursor [m1, m2] initState st1val (by decide) (by decide)).2).trans (by decide)⟩

/-- Claim C2 (counterexample): `mBadHex` passes the eligibility filter but
its identifier `zz` is not valid hexadecimal; the encoder panics
(`EncodeResult.crash`, the `unwrap` aborting the process) instead of
dropping the single entry, and page processing dies instead of continuing
with the next entry `m1`. -/
theorem c2_counterexample :
    should_cache_map mBadHex = some true
  ∧ cache_map_data mBadHex = EncodeResult.crash
  ∧ processDocs [mBadHex, m1] ⟨[]⟩ Option.none = Option.none := by decide

/-- Claim C2 (amended): for an entry that passed the filter, only a missing
last-updated timestamp makes the encoder drop the single entry while the
loop continues; an identifier that is not valid hexadecimal, an
out-of-range duration, or a non-representable first-publication or
last-updated timestamp makes the encoder panic and terminate the
process. -/
theorem c2_amended_encoder (m : Map) (hf : should_cache_map m = some true) :
    (u32_from_str_radix16 m.id = Option.none → cache_map_data m = EncodeResult.crash)
  ∧ (∀ key, u32_from_str_radix16 m.id = some key →
      ¬(0 ≤ m.metadata.duration ∧ m.metadata.duration < 2 ^ 32) →
      cache_map_data m = EncodeResult.crash)
  ∧ (∀ key lp, u32_from_str_radix16 m.id = some key →
      (0 ≤ m.metadata.duration ∧ m.metadata.duration < 2 ^ 32) →
      m.last_published_at = some lp → ¬(0 ≤ lp ∧ lp < 2 ^ 32) →
      cache_map_data m = EncodeResult.crash)
  ∧ (∀ key lp ua, u32_from_str_radix16 m.id = some key →
      (0 ≤ m.metadata.duration ∧ m.metadata.duration < 2 ^ 32) →
      m.last_published_at = some lp → (0 ≤ lp ∧ lp < 2 ^ 32) →
      m.updated_at = some ua → ¬(0 ≤ ua ∧ ua < 2 ^ 32) →
      cache_map_data m = EncodeResult.crash)
  ∧ (∀ key lp, u32_from_str_radix16 m.id = some key →
      (0 ≤ m.metadata.duration ∧ m.metadata.duration < 2 ^ 32) →
      m.last_published_at = some lp → (0 ≤ lp ∧ lp < 2 ^ 32) →
      m.updated_at = Option.none →
      cache_map_data m = EncodeResult.dropped ∧
        ∀ ml last, stepEntry ml last m = some (ml, last)) := by
  obtain ⟨-, v0, vs, hv⟩ := should_cache_map_true_inv m hf
  refine ⟨fun hk => ?_, fun key hk hd => ?_, fun key lp hk hd hlp hbad => ?_,
    fun key lp ua hk hd hlp hok hua hbad => ?_, fun key lp hk hd hlp hok hua => ?_⟩
  · unfold cache_map_data
    simp only [hf, hk]
  · have hdur : u32_try_from m.metadata.duration = Option.none := by
      unfold u32_try_from; rw [if_neg hd]
    unfold cache_map_data
    simp only [hf, hk, hv, hdur]
  · have hdur : u32_try_from m.metadata.duration = some m.metadata.duration.toNat := by
      unfold u32_try_from; rw [if_pos hd]
    have hlpbad : u32_try_from lp = Option.none := by
      unfold u32_try_from; rw [if_neg hbad]
    unfold cache_map_data
    simp only [hf, hk, hv, hdur, hlp, hlpbad]
  · have hdur : u32_try_from m.metadata.duration = some m.metadata.duration.toNat := by
      unfold u32_try_from; rw [if_pos hd]
    have hlpok : u32_try_from lp = some lp.toNat := by
      unfold u32_try_from; rw [if_pos hok]
    have huabad : u32_try_from ua = Option.none := by
      unfold u32_try_from; rw [if_neg hbad]
    unfold cache_map_data
    simp only [hf, hk, hv, hdur, hlp, hlpok, hua, huabad]
  · have hdur : u32_try_from m.metadata.duration = some m.metadata.duration.toNat := by
      unfold u32_try_from; rw [if_pos hd]
    have hlpok : u32_try_from lp = some lp.toNat := by
      unfold u32_try_from; rw [if_pos hok]
    have hcd : cache_map_data m = EncodeResult.dropped := by
      unfold cache_map_data
      simp only [hf, hk, hv, hdur, hlp, hlpok, hua]
    exact ⟨hcd, fun ml last => by simp only [stepEntry, hcd]⟩

/-- Witness for C2 (amended): the panic case at `mBadHex` and the
graceful-drop case at `mNoUpdated`. -/
theorem c2_amended_encoder_witness :
    cache_map_data mBadHex = EncodeResult.crash
  ∧ cache_map_data mNoUpdated = EncodeResult.dropped :=
  ⟨(c2_amended_encoder mBadHex (by decide)).1 (by decide),
   ((c2_amended_encoder mNoUpdated (by decide)).2.2.2.2 13 1000 (by decide) (by decide)
      (by decide) (by decide) (by decide)).1⟩

/-- Claim C3 (confirmed): over the data model's entries (at least one
version), the eligibility filter returns false iff one of the four
rejection conditions holds, and the logged rejection reason is decided by
the first failing condition in the fixed order (a) no first-publication
timestamp, (b) first version not published, (c) AI-declared, (d)
auto-mapped; otherwise the filter returns true. -/
theorem c3_filter_order (m : Map) (v0 : MapVersion) (vs : List MapVersion)
    (hv : m.versions = v0 :: vs) :
    ((should_cache_map m = some false) ↔
      (m.last_published_at = Option.none ∨ v0.state ≠ MapState.published ∨
        m.declared_ai ≠ AIDeclarationType.none ∨ m.automapper = true))
  ∧ ((should_cache_map m = some true) ↔
      ¬(m.last_published_at = Option.none ∨ v0.state ≠ MapState.published ∨
        m.declared_ai ≠ AIDeclarationType.none ∨ m.automapper = true))
  ∧ (m.last_published_at = Option.none →
      should_cache_map_reason m = some (some RejectReason.notPublished))
  ∧ (m.last_published_at ≠ Option.none → v0.state ≠ MapState.published →
      should_cache_map_reason m = some (some RejectReason.versionNotPublished))
  ∧ (m.last_published_at ≠ Option.none → v0.state = MapState.published →
      m.declared_ai ≠ AIDeclarationType.none →
      should_cache_map_reason m = some (some RejectReason.aiGenerated))
  ∧ (m.last_published_at ≠ Option.none → v0.state = MapState.published →
      m.declared_ai = AIDeclarationType.none → m.automapper = true →
      should_cache_map_reason m = some (some RejectReason.automapped))
  ∧ (m.last_published_at ≠ Option.none → v0.state = MapState.published →
      m.declared_ai = AIDeclarationType.none → m.automapper = false →
      should_cache_map_reason m = some Option.none) := by
  unfold should_cache_map should_cache_map_reason
  rw [hv]
  by_cases h1 : m.last_published_at = Option.none
  · simp [Option.isNone_iff_eq_none, h1]
  · by_cases h2 : v0.state = MapState.published
    · by_cases h3 : m.declared_ai = AIDeclarationType.none
      · by_cases h4 : m.automapper = true
        · simp [Option.isNone_iff_eq_none, h1, h2, h3, h4]
        · simp [Option.isNone_iff_eq_none, h1, h2, h3, h4]
      · simp [Option.isNone_iff_eq_none, h1, h2, h3]
    · simp [Option.isNone_iff_eq_none, h1, h2]

/-- Witness for C3 at the concrete maps `m1` (accepted) and `m2`
(auto-mapped, rejected with the automapped reason). -/
theorem c3_filter_order_witness :
    should_cache_map m1 = some true
  ∧ should_cache_map_reason m2 = some (some RejectReason.automapped) :=
  ⟨(c3_filter_order m1 v1 [] rfl).2.1.mpr (by decide),
   (c3_filter_order m2 v2 [] rfl).2.2.2.2.2.1 (by decide) (by decide) (by decide) (by decide)⟩

/-- Claim C4 (counterexample): two non-empty pages `[m1]` and `[m3, m2]`
then an empty page, with the last entry `m2` of the second page rejected
by the filter: the loop terminates, but the final cursor is 800 =
`m3.uploaded`, not 500 = the first-publication timestamp of the last
entry of the second page as the claim states, and not 850 = `m3`'s own
first-publication timestamp either. -/
theorem c4_counterexample :
    cursorOfResult
        (init_cache [Response.ok [m1], Response.ok [m3, m2], Response.ok []] 2000) = some 800
  ∧ m2.last_published_at = some 500 ∧ m3.uploaded = 800 ∧ m3.last_published_at = some 850
  ∧ ¬((800 : Int) = 500) ∧ ¬((800 : Int) = 850) := by decide

/-- Claim C4 (amended): for two non-empty pages followed by an empty page,
if no entry makes the encoder panic, the loop reaches the Done branch and
returns a snapshot whose keys are exactly the ids of the successfully
cached entries of both pages, with the final cursor the upload timestamp
of the last cached entry (the initial cursor if nothing was cached). -/
theorem c4_amended_termination (p1 p2 : List Map) (t0 : Int)
    (h1 : p1 ≠ []) (h2 : p2 ≠ [])
    (hnc : ∀ m, m ∈ p1 ++ p2 → cache_map_data m ≠ EncodeResult.crash) :
    ∃ st, init_cache [Response.ok p1, Response.ok p2, Response.ok []] t0 = some st
      ∧ (∀ k, (snapFind st.map_list.map_metadata k).isSome = true ↔
            ∃ m, m ∈ p1 ++ p2 ∧ m.id = k ∧ (cache_map_data m).isOk = true)
      ∧ st.current_time = cursorUpdate t0 (lastCachedSpec Option.none (p1 ++ p2)) := by
  cases p1 with
  | nil => exact absurd rfl h1
  | cons a as =>
  cases p2 with
  | nil => exact absurd rfl h2
  | cons b bs =>
  obtain ⟨⟨ml1, last1⟩, hpd1⟩ :=
    processDocs_total (a :: as) ⟨[]⟩ Option.none
      (fun m hm => hnc m (List.mem_append_left _ hm))
  obtain ⟨⟨ml2, last2⟩, hpd2⟩ :=
    processDocs_total (b :: bs) ml1 last1
      (fun m hm => hnc m (List.mem_append_right _ hm))
  have hl1 : last1 = lastCachedSpec Option.none (a :: as) :=
    processDocs_last _ _ _ _ _ hpd1
  have hl2 : last2 = lastCachedSpec last1 (b :: bs) :=
    processDocs_last _ _ _ _ _ hpd2
  refine ⟨{ current_time := cursorUpdate (cursorUpdate t0 last1) last2
            last_map := last2
            map_list := ml2 }, ?_, ?_, ?_⟩
  · simp only [init_cache, init_cache_loop, stepPage, hpd1, hpd2]
  · intro k
    have hk2 := processDocs_find (b :: bs) ml1 last1 ml2 last2 hpd2 k
    have hk1 := processDocs_find (a :: as) ⟨[]⟩ Option.none ml1 last1 hpd1 k
    simp only [snapFind, Option.isSome_none, Bool.false_eq_true, false_or] at hk1
    rw [hk2, hk1]
    constructor
    · rintro (⟨m', hm', hid, hok⟩ | ⟨m', hm', hid, hok⟩)
      · exact ⟨m', List.mem_append_left _ hm', hid, hok⟩
      · exact ⟨m', List.mem_append_right _ hm', hid, hok⟩
    · rintro ⟨m', hm', hid, hok⟩
      rcases List.mem_append.mp hm' with hm | hm
      · exact Or.inl ⟨m', hm, hid, hok⟩
      · exact Or.inr ⟨m', hm, hid, hok⟩
  · show cursorUpdate (cursorUpdate t0 last1) last2
        = cursorUpdate t0 (lastCachedSpec Option.none ((a :: as) ++ (b :: bs)))
    rw [lastCachedSpec_append, ← hl1, ← hl2]
    cases hc2 : last2 with
    | some mm => rfl
    | none =>
      cases hc1 : last1 with
      | none => rfl
      | some mm =>
        exfalso
        have hs := lastCachedSpec_some (b :: bs) mm
        rw [← hc1, ← hl2, hc2] at hs
        exact (Bool.noConfusion hs)

/-- Witness for C4 (amended) at the concrete pages `[m1]` and `[m3]`. -/
theorem c4_amended_termination_witness :
    ∃ st, init_cache [Response.ok [m1], Response.ok [m3], Response.ok []] 2000 = some st
      ∧ (∀ k, (snapFind st.map_list.map_metadata k).isSome = true ↔
            ∃ m, m ∈ [m1] ++ [m3] ∧ m.id = k ∧ (cache_map_data m).isOk = true)
      ∧ st.current_time = cursorUpdate 2000 (lastCachedSpec Option.none ([m1] ++ [m3])) :=
  c4_amended_termination [m1] [m3] 2000 (by decide) (by decide) (by decide)

/-- Claim C5 (confirmed): the encoded record's mods field equals the
bitwise or, over the difficulties of the first version, of the
per-difficulty flag mask with bit 0 = cinema, 1 = mapping-extensions,
2 = chroma, 3 = noodle-extensions, 4 = vivify. -/
theorem c5_mods_bitmask (m : Map) (v0 : MapVersion) (vs : List MapVersion) (r : MapMetadata)
    (hv : m.versions = v0 :: vs) (h : cache_map_data m = EncodeResult.ok r) :
    r.mods = v0.diffs.foldl
      (fun acc d => acc ||| packMask d.cinema d.me d.chroma d.ne d.vivify) 0 := by
  obtain ⟨v0', vs', hv', hmods⟩ := cache_ok_mods m r h
  rw [hv] at hv'
  injection hv' with e1 e2
  rw [hmods, ← e1]
  calc generate_protobuf_map_mods v0
      = packOfMods (get_map_mods v0) := rfl
    _ = v0.diffs.foldl
          (fun acc d => acc ||| packMask d.cinema d.me d.chroma d.ne d.vivify)
          (packOfMods {}) := by rw [get_map_mods, get_map_mods_fold]
    _ = v0.diffs.foldl
          (fun acc d => acc ||| packMask d.cinema d.me d.chroma d.ne d.vivify) 0 := by
        have h0 : packOfMods {} = (0 : Nat) := by decide
        rw [h0]

/-- Witness for C5: `mChroma`, whose single difficulty sets only chroma,
encodes with mods = 4. -/
theorem c5_mods_bitmask_witness :
    cache_map_data mChroma = EncodeResult.ok recChroma ∧ recChroma.mods = 4 :=
  ⟨by decide,
   (c5_mods_bitmask mChroma vChroma [] recChroma (by decide) (by decide)).trans (by decide)⟩

/-- Claim C6 (confirmed): the empty snapshot satisfies the invariant, each
per-entry step of the harvest loop preserves it (so a filter-rejected
entry is never inserted, even transiently), and the whole loop preserves
it: every record in the snapshot comes from an entry the filter
accepted. -/
theorem c6_snapshot_invariant :
    SnapInv []
  ∧ (∀ ml last m ml' last', SnapInv ml.map_metadata →
      stepEntry ml last m = some (ml', last') → SnapInv ml'.map_metadata)
  ∧ (∀ script st st', SnapInv st.map_list.map_metadata →
      init_cache_loop script st = some st' → SnapInv st'.map_list.map_metadata) :=
  ⟨fun p hp => absurd hp (List.not_mem_nil p),
   fun ml last m ml' last' hinv h => stepEntry_inv ml last m ml' last' hinv h,
   fun script st st' hinv h => init_cache_loop_inv script st st' hinv h⟩

/-- Witness for C6: inserting the eligible `m1` into the empty snapshot
yields a snapshot satisfying the invariant. -/
theorem c6_snapshot_invariant_witness :
    stepEntry ⟨[]⟩ Option.none m1 = some (⟨[("a", rec1)]⟩, some m1)
  ∧ SnapInv [("a", rec1)] :=
  ⟨by decide,
   c6_snapshot_invariant.2.1 ⟨[]⟩ Option.none m1 ⟨[("a", rec1)]⟩ (some m1)
     (fun p hp => absurd hp (List.not_mem_nil p)) (by decide)⟩

/-- Claim C7 (counterexample): a failing compressor write is silently
swallowed (the run still reports success), and a failing `gz.finish()`
panics (no failure result is returned at all) — neither compression
failure is signalled as a failure result, contrary to the claim. -/
theorem c7_counterexample :
    write_cache emptyMapList "out" encConst gzwErr finOkOne fswOk = some true
  ∧ write_cache emptyMapList "out" encConst gzwOk finErrU fswOk = Option.none :=
  ⟨rfl, rfl⟩

/-- Claim C7 (amended): the writer's result ignores the compressor write
outcome entirely; a `gz.finish()` error panics (terminating the process
instead of returning failure); a filesystem write error returns false;
otherwise it returns true. -/
theorem c7_amended_writer (ml : MapList) (path : String)
    (enc : MapList → List Nat) (w w' : List Nat → Except Unit Unit)
    (fin : Except Unit (List Nat)) (fs : String → List Nat → Except Unit Unit) :
    (write_cache ml path enc w fin fs = write_cache ml path enc w' fin fs)
  ∧ (∀ e, fin = Except.error e → write_cache ml path enc w fin fs = Option.none)
  ∧ (∀ bs e, fin = Except.ok bs → fs path bs = Except.error e →
      write_cache ml path enc w fin fs = some false)
  ∧ (∀ bs, fin = Except.ok bs → fs path bs = Except.ok () →
      write_cache ml path enc w fin fs = some true) := by
  refine ⟨rfl, fun e he => ?_, fun bs e hb hf => ?_, fun bs hb hf => ?_⟩
  · unfold write_cache
    simp only [he]
  · unfold write_cache
    simp only [hb, hf]
  · unfold write_cache
    simp only [hb, hf]

/-- Witness for C7 (amended): the three outcomes at concrete effects. -/
theorem c7_amended_writer_witness :
    write_cache emptyMapList "out" encConst gzwOk finErrU fswOk = Option.none
  ∧ write_cache emptyMapList "out" encConst gzwOk finOkOne fswErr = some false
  ∧ write_cache emptyMapList "out" encConst gzwOk finOkOne fswOk = some true :=
  ⟨(c7_amended_writer emptyMapList "out" encConst gzwOk gzwOk finErrU fswOk).2.1 () rfl,
   (c7_amended_writer emptyMapList "out" encConst gzwOk gzwOk finOkOne fswErr).2.2.1 [1] () rfl rfl,
   (c7_amended_writer emptyMapList "out" encConst gzwOk gzwOk finOkOne fswOk).2.2.2 [1] rfl rfl⟩

/-- Claim C8 (counterexample): `mNoVersions` has a first-publication
timestamp but an empty versions list; the filter does not return a
boolean on it — `map.versions[0]` panics — so the filter is not total over
all CatalogEntries. -/
theorem c8_counterexample :
    should_cache_map mNoVersions = Option.none
  ∧ mNoVersions.last_published_at = some 5 ∧ mNoVersions.versions = [] := by decide

/-- Claim C8 (amended): the filter is a pure deterministic predicate that
returns a boolean for every CatalogEntry that has no first-publication
timestamp or at least one version; on an entry with a first-publication
timestamp and an empty versions list it panics instead. -/
theorem c8_amended_total (m : Map)
    (h : m.last_published_at = Option.none ∨ m.versions ≠ []) :
    ∃ b, should_cache_map m = some b := by
  by_cases h1 : m.last_published_at = Option.none
  · exact ⟨false, by simp [should_cache_map, Option.isNone_iff_eq_none, h1]⟩
  · cases hv : m.versions with
    | nil =>
      rcases h with h | h
      · exact absurd h h1
      · exact absurd hv h
    | cons v0 vs =>
      by_cases h2 : v0.state = MapState.published
      · by_cases h3 : m.declared_ai = AIDeclarationType.none
        · by_cases h4 : m.automapper = true
          · exact ⟨false,
              by simp [should_cache_map, Option.isNone_iff_eq_none, h1, hv, h2, h3, h4]⟩
          · exact ⟨true,
              by simp [should_cache_map, Option.isNone_iff_eq_none, h1, hv, h2, h3, h4]⟩
        · exact ⟨false, by simp [should_cache_map, Option.isNone_iff_eq_none, h1, hv, h2, h3]⟩
      · exact ⟨false, by simp [should_cache_map, Option.isNone_iff_eq_none, h1, hv, h2]⟩

/-- Witness for C8 (amended) at the concrete map `m1`. -/
theorem c8_amended_total_witness : ∃ b, should_cache_map m1 = some b :=
  c8_amended_total m1 (Or.inr (by decide))

/-- Claim C9 (confirmed): over the `i32` source range, the encoded vote
counts equal the source values when non-negative, and each negative source
value clamps to 0. -/
theorem c9_votes_clamp (up down : Int)
    (hu1 : -(2 ^ 31) ≤ up) (hu2 : up < 2 ^ 31)
    (hd1 : -(2 ^ 31) ≤ down) (hd2 : down < 2 ^ 31) :
    (0 ≤ up → (generate_protobuf_votes up down).up = up.toNat)
  ∧ (up < 0 → (generate_protobuf_votes up down).up = 0)
  ∧ (0 ≤ down → (generate_protobuf_votes up down).down = down.toNat)
  ∧ (down < 0 → (generate_protobuf_votes up down).down = 0) := by
  refine ⟨fun h => ?_, fun h => ?_, fun h => ?_, fun h => ?_⟩
  · show (u32_try_from up).getD 0 = up.toNat
    rw [u32_try_from, if_pos ⟨h, by omega⟩]
    rfl
  · show (u32_try_from up).getD 0 = 0
    rw [u32_try_from, if_neg (by omega : ¬(0 ≤ up ∧ up < 2 ^ 32))]
    rfl
  · show (u32_try_from down).getD 0 = down.toNat
    rw [u32_try_from, if_pos ⟨h, by omega⟩]
    rfl
  · show (u32_try_from down).getD 0 = 0
    rw [u32_try_from, if_neg (by omega : ¬(0 ≤ down ∧ down < 2 ^ 32))]
    rfl

/-- Witness for C9: upvotes 3, downvotes -5 encode to (3, 0). -/
theorem c9_votes_clamp_witness :
    (generate_protobuf_votes 3 (-5)).up = 3 ∧ (generate_protobuf_votes 3 (-5)).down = 0 :=
  ⟨((c9_votes_clamp 3 (-5) (by decide) (by decide) (by decide) (by decide)).1
      (by decide)).trans (by decide),
   (c9_votes_clamp 3 (-5) (by decide) (by decide) (by decide) (by decide)).2.2.2 (by decide)⟩

/-- Claim C10 (confirmed): each conversion function in protogen.rs is
extensionally equal to the same-named function in cacher.rs. -/
theorem c10_protogen_equivalence :
    (∀ d, protogen.generate_protobuf_ranked_values d = generate_protobuf_ranked_values d)
  ∧ (∀ v, protogen.generate_protobuf_map_mods v = generate_protobuf_map_mods v)
  ∧ (∀ d, protogen.generate_protobuf_diff_mods d = generate_protobuf_diff_mods d)
  ∧ (∀ v, protogen.generate_protobuf_diffs v = generate_protobuf_diffs v)
  ∧ (∀ m, protogen.generate_protobuf_curator m = generate_protobuf_curator m)
  ∧ (∀ up down, protogen.generate_protobuf_votes up down = generate_protobuf_votes up down) :=
  ⟨fun _ => rfl, fun _ => rfl, fun _ => rfl,
   fun v => protogen_diffs_go_eq v.diffs,
   fun _ => rfl, fun _ _ => rfl⟩

end Cacher
